import Mathlib

/-!
Shallow embedding of the request-admission pipeline of `src/server/api.js`
(the POST /api/request handler and its helpers), together with theorems
checking the natural-language specification against it.

Modelling conventions:
* JS numbers are modelled as `ℚ` (for ratings and the rounding helper) and
  `Int` (for millisecond timestamps, `Date.getTime()` values).
* The external `osuApi.getBeatmaps` call is modelled by an
  `Option (RawBeatmap × List RawBeatmap)` argument: `none` models the call
  throwing (the node-osu client rejects both on transport failure and when
  the lookup returns no beatmaps, which is what the handler's `catch`
  intercepts); `some (first, rest)` models a successful lookup whose result
  array is `first :: rest` (`mapData[0] = first`).
* Mongoose documents become Lean structures; the store is a list of
  persisted `Request`s plus the target owner's `Settings` document.
-/

namespace Osumod

/-- One element of the `mapData` array returned by `osuApi.getBeatmaps`,
with the fields the handler reads (already past `parseInt`/`parseFloat`). -/
structure RawBeatmap where
  id : Int
  title : String
  artist : String
  creator : String
  bpm : ℚ
  lengthTotal : Nat
  version : String
  mode : String
  rating : ℚ
  approvalStatus : String
  beatmapSetId : Int
deriving DecidableEq, Repr

/-- One entry of `map.diffs` (api.js lines 57-63). -/
structure Diff where
  name : String
  mode : String
  sr : ℚ
deriving DecidableEq, Repr

/-- The `map` object built by the handler (api.js lines 48-66): the
submission candidate. -/
structure Candidate where
  mapId : Int
  title : String
  artist : String
  creator : String
  bpm : ℚ
  length : String
  comment : String
  m4m : Bool
  diffs : List Diff
  status : String
  image : String
deriving DecidableEq, Repr

/-- The target owner's `Settings` document, with the fields the handler
reads.  The source field `open` is called `openFlag` here because `open`
is a Lean keyword. -/
structure Settings where
  owner : String
  modderType : String
  modes : List String
  openFlag : Bool
  cooldown : Int
  maxPending : Nat
deriving DecidableEq, Repr

/-- A persisted `Request` document (api.js lines 128-135). -/
structure Request where
  mapId : Int
  title : String
  artist : String
  creator : String
  bpm : ℚ
  length : String
  comment : String
  m4m : Bool
  diffs : List Diff
  status : String
  image : String
  user : Int
  requestDate : Int
  target : String
  archived : Bool
  feedback : Option String
deriving DecidableEq, Repr

/-- api.js lines 20-21: `isBN`. -/
def isBN (settings : Settings) : Bool :=
  settings.modderType == "full" || settings.modderType == "probation"

/-- api.js line 23: `const round = (num) => Math.round(num * 100) / 100`.
JS `Math.round x = ⌊x + 1/2⌋` (round half toward +∞). -/
def round (num : ℚ) : ℚ :=
  ((⌊num * 100 + 1 / 2⌋ : ℤ) : ℚ) / 100

/-- api.js lines 24-25: `formatTime`. -/
def formatTime (time : Nat) : String :=
  toString (time / 60) ++ ":" ++ (if time % 60 < 10 then "0" else "") ++ toString (time % 60)

/-- Decimal rendering of a rational whose denominator divides 100, matching
JS `Number.prototype.toString` on such values ("0", "0.5", "1.25", "-0.5").
Used only to render the cooldown message's day count, which is always an
output of `round`. -/
def decStr (q : ℚ) : String :=
  let n : Int := ⌊q * 100⌋
  let sign := if n < 0 then "-" else ""
  let m := n.natAbs
  let ip := m / 100
  let fp := m % 100
  if fp = 0 then sign ++ toString ip
  else if fp % 10 = 0 then sign ++ toString ip ++ "." ++ toString (fp / 10)
  else sign ++ toString ip ++ "." ++ (if fp < 10 then "0" else "") ++ toString fp

/-- One element of `map.diffs` (api.js lines 58-62): the per-variant record,
with the rating rounded to 2 decimals. -/
def toDiff (b : RawBeatmap) : Diff :=
  { name := b.version, mode := b.mode, sr := round b.rating }

/-- The candidate built from a successful lookup (api.js lines 48-66).
`mapData` is `first :: rest`; the per-variant list is mapped through
`toDiff` and then sorted ascending by `sr` (`.sort((a, b) => a.sr - b.sr)`). -/
def buildCandidate (first : RawBeatmap) (rest : List RawBeatmap)
    (comment : String) (m4m : Bool) : Candidate :=
  { mapId := first.id
    title := first.title
    artist := first.artist
    creator := first.creator
    bpm := first.bpm
    length := formatTime first.lengthTotal
    comment := comment
    m4m := m4m
    diffs := ((first :: rest).map toDiff).mergeSort (fun a b => decide (a.sr ≤ b.sr))
    status := first.approvalStatus
    image := "https://assets.ppy.sh/beatmaps/" ++ toString first.beatmapSetId ++ "/covers/cover.jpg" }

/-- api.js line 75: `map.diffs.filter((diff) => settings.modes.includes(diff.mode))`. -/
def acceptableDiffs (settings : Settings) (map : Candidate) : List Diff :=
  map.diffs.filter (fun diff => settings.modes.contains diff.mode)

/-- The reason string pushed by the category filter (api.js lines 78-82). -/
def categoryMsg (settings : Settings) : String :=
  if settings.modes.length = 1 then
    "Only " ++ settings.modes.headD "" ++ " maps are accepted"
  else
    "Must be one of the following gamemodes: " ++ String.intercalate ", " settings.modes

/-- Rule 1, category filter (api.js lines 77-83). -/
def categoryRule (settings : Settings) (map : Candidate) : List String :=
  if (acceptableDiffs settings map).length = 0 then [categoryMsg settings] else []

/-- Rule 2, review-status gate (api.js lines 85-87). -/
def statusRule (settings : Settings) (map : Candidate) : List String :=
  if isBN settings ∧ map.status ≠ "Pending" then
    ["Expected a Pending map (this is " ++ map.status ++ ")"]
  else []

/-- Rule 3, ownership check (api.js lines 89-91). -/
def ownershipRule (username : String) (map : Candidate) : List String :=
  if map.creator ≠ username then ["This map isn't yours"] else []

/-- Rule 4, comment length (api.js lines 93-95). -/
def commentRule (map : Candidate) : List String :=
  if 500 < map.comment.length then ["Comment is excessively long"] else []

/-- Rule 5, open-queue check (api.js lines 105-107). -/
def openRule (settings : Settings) : List String :=
  if settings.openFlag then [] else ["Requests are closed"]

/-- Milliseconds per day, `24 * 3600 * 1000`. -/
def msPerDay : Int := 24 * 3600 * 1000

/-- The remaining wait reported by the cooldown rule (api.js lines 114-116):
`round((minWait - diff) / (24 * 3600 * 1000))`, in days. -/
def cooldownRemaining (settings : Settings) (lastMs nowMs : Int) : ℚ :=
  round (((settings.cooldown * msPerDay - (nowMs - lastMs) : Int) : ℚ) / ((msPerDay : Int) : ℚ))

/-- The cooldown reason string (api.js lines 113-117). -/
def cooldownMsg (days : ℚ) : String :=
  "You need to wait " ++ decStr days ++ " days before you can request again"

/-- Rule 6, cooldown check (api.js lines 109-119).  `lastReq` is the
`requestDate` timestamp of the most recent prior request, if any. -/
def cooldownRule (settings : Settings) (lastReq : Option Int) (now : Int) : List String :=
  match lastReq with
  | none => []
  | some t =>
      if now - t < settings.cooldown * msPerDay then
        [cooldownMsg (cooldownRemaining settings t now)]
      else []

/-- The admission decision (api.js lines 74-122): the six rules are run
unconditionally, each appending its reasons, and the owner bypass
(line 122) then discards everything when `username = target`. -/
def evaluate (map : Candidate) (username target : String) (settings : Settings)
    (lastReq : Option Int) (now : Int) : List String :=
  let errors :=
    categoryRule settings map ++ statusRule settings map ++
    ownershipRule username map ++ commentRule map ++
    openRule settings ++ cooldownRule settings lastReq now
  if username = target then [] else errors

/-- api.js line 138:
`Request.countDocuments({ status: "Pending", target })` — note there is no
condition on `archived`. -/
def countPending (reqs : List Request) (target : String) : Nat :=
  (reqs.filter (fun r => r.status == "Pending" && r.target == target)).length

/-- api.js line 71:
`Request.findOne({ user, target }).sort({ requestDate: -1 })` — the
most recent `requestDate` among this user's prior requests to this target. -/
def latestRequestDate (reqs : List Request) (userid : Int) (target : String) : Option Int :=
  ((reqs.filter (fun r => r.user == userid && r.target == target)).map
    (fun r => r.requestDate)).max?

/-- The `Request` document created on acceptance (api.js lines 128-135):
the object spread `{...map, status: "Pending", user, requestDate, target,
archived: false}` copies every candidate field and then overwrites `status`. -/
def mkRequest (map : Candidate) (userid : Int) (now : Int) (target : String) : Request :=
  { mapId := map.mapId
    title := map.title
    artist := map.artist
    creator := map.creator
    bpm := map.bpm
    length := map.length
    comment := map.comment
    m4m := map.m4m
    diffs := map.diffs
    status := "Pending"
    user := userid
    requestDate := now
    target := target
    archived := false
    image := map.image
    feedback := none }

/-- The persistence-side state the handler touches: the stored `Request`
documents and the target owner's `Settings` document. -/
structure ServerState where
  requests : List Request
  settings : Settings
deriving DecidableEq, Repr

/-- The handler's response body.  `map = none` models the empty object `{}`
sent on lookup failure (api.js line 45). -/
structure Response where
  map : Option Candidate
  errors : List String
deriving DecidableEq, Repr

/-- The whole POST /api/request handler (api.js lines 37-147), as a function
of the lookup outcome, the request parameters, the current time and the
store state.  Returns the response and the updated store. -/
def postRequest (lookup : Option (RawBeatmap × List RawBeatmap))
    (comment : String) (m4m : Bool) (username : String) (userid : Int)
    (target : String) (now : Int) (st : ServerState) : Response × ServerState :=
  match lookup with
  | none => ({ map := none, errors := ["Invalid beatmap ID"] }, st)
  | some (first, rest) =>
      let map := buildCandidate first rest comment m4m
      let lastReq := latestRequestDate st.requests userid target
      let errors := evaluate map username target st.settings lastReq now
      if errors.length ≠ 0 then
        ({ map := some map, errors := errors }, st)
      else
        let request := mkRequest map userid now target
        let requests2 := request :: st.requests
        let numPending := countPending requests2 target
        let settings2 :=
          if st.settings.maxPending ≤ numPending then
            { st.settings with openFlag := false }
          else st.settings
        ({ map := some map, errors := [] },
         { requests := requests2, settings := settings2 })

/-! ## Concrete fixtures used by witnesses and counterexamples -/

/-- A taiko-only difficulty, not accepted by an osu-only queue. -/
def exDiff : Diff := { name := "Insane", mode := "taiko", sr := 5 }

/-- A 501-character comment. -/
def longComment : String := String.mk (List.replicate 501 'a')

/-- A candidate violating the category filter (taiko diff vs osu-only queue),
the review-status gate (Ranked), the ownership check (creator "alice") and the
comment-length rule (501 characters). -/
def exMap : Candidate :=
  { mapId := 1, title := "t", artist := "a", creator := "alice", bpm := 180
    length := "1:30", comment := longComment, m4m := false, diffs := [exDiff]
    status := "Ranked", image := "i" }

/-- An osu-only full-BN queue, open, 1-day cooldown, capacity 2. -/
def exSettings : Settings :=
  { owner := "bob", modderType := "full", modes := ["osu"], openFlag := true
    cooldown := 1, maxPending := 2 }

/-- A closed variant of `exSettings`. -/
def exSettingsClosed : Settings := { exSettings with openFlag := false }

/-- A raw lookup row owned by "bob". -/
def exRaw : RawBeatmap :=
  { id := 10, title := "t", artist := "a", creator := "bob", bpm := 180
    lengthTotal := 90, version := "v", mode := "osu", rating := 5
    approvalStatus := "Pending", beatmapSetId := 99 }

/-- A stored request to "bob" that is archived but still has status "Pending". -/
def exArchivedReq : Request :=
  { mapId := 3, title := "t", artist := "a", creator := "bob", bpm := 170
    length := "1:00", comment := "", m4m := false, diffs := [], status := "Pending"
    image := "i", user := 9, requestDate := 0, target := "bob", archived := true
    feedback := none }

/-- A store with no requests and a capacity-1 queue for "bob". -/
def exStateEmpty : ServerState :=
  { requests := [], settings := { exSettings with maxPending := 1 } }

/-- A store whose only request is archived-but-Pending, capacity 2. -/
def exStateArchived : ServerState :=
  { requests := [exArchivedReq], settings := exSettings }

/-! ## Helper lemmas -/

/-- A request matching the pending filter bumps the pending count by one. -/
theorem countPending_cons_of (r : Request) (reqs : List Request) (t : String)
    (h : (r.status == "Pending" && r.target == t) = true) :
    countPending (r :: reqs) t = countPending reqs t + 1 := by
  simp [countPending, List.filter_cons, h]

/-- `decStr` renders the rational zero the way JS renders the number 0. -/
theorem decStr_zero : decStr 0 = "0" := by
  norm_num [decStr]; rfl

/-! ## Claim theorems -/

/-- C1: for a non-owner submission the six rules are evaluated independently
(no short-circuiting), so the reasons list is exactly the concatenation of the
six rules' outputs in the fixed order category / review-status / ownership /
comment-length / open-queue / cooldown; in particular a candidate with both a
wrong category and an over-long comment gets both reason strings. -/
theorem rules_independent_and_ordered (map : Candidate) (username target : String)
    (settings : Settings) (lastReq : Option Int) (now : Int)
    (h : username ≠ target) :
    evaluate map username target settings lastReq now =
      categoryRule settings map ++ statusRule settings map ++
      ownershipRule username map ++ commentRule map ++
      openRule settings ++ cooldownRule settings lastReq now ∧
    ((acceptableDiffs settings map).length = 0 → 500 < map.comment.length →
      categoryMsg settings ∈ evaluate map username target settings lastReq now ∧
      "Comment is excessively long" ∈ evaluate map username target settings lastReq now) := by
  refine ⟨by simp [evaluate, h], fun h1 h2 => ⟨?_, ?_⟩⟩
  · simp [evaluate, h, categoryRule, h1]
  · simp [evaluate, h, commentRule, h2]

set_option maxRecDepth 4000 in
/-- C1 witness: a submission by "alice" to "bob" with a wrong-category diff
and a 501-character comment carries both reason strings. -/
theorem rules_independent_and_ordered_witness :
    categoryMsg exSettings ∈ evaluate exMap "alice" "bob" exSettings none 0 ∧
    "Comment is excessively long" ∈ evaluate exMap "alice" "bob" exSettings none 0 :=
  (rules_independent_and_ordered exMap "alice" "bob" exSettings none 0
    (by decide)).2 (by decide) (by decide)

/-- C2: the owner bypass (api.js line 122): when the requester's username
equals the target, the reasons list is cleared unconditionally, whatever the
six rules produced. -/
theorem owner_bypass (map : Candidate) (username target : String)
    (settings : Settings) (lastReq : Option Int) (now : Int)
    (h : username = target) :
    evaluate map username target settings lastReq now = [] := by
  simp [evaluate, h]

/-- C2 witness: "bob" submitting to his own closed queue a map he does not
own, with wrong category, Ranked status and an over-long comment, is still
accepted with no reasons. -/
theorem owner_bypass_witness :
    evaluate exMap "bob" "bob" exSettingsClosed none 0 = [] :=
  owner_bypass exMap "bob" "bob" exSettingsClosed none 0 rfl

/-- C3: the cooldown rule emits nothing when there is no prior request, or
when the elapsed time is at least `cooldown * 24 * 3600 * 1000` ms; otherwise
it emits exactly the one string built from the remaining wait
`round((minWait - diff) / msPerDay)` rounded to two decimals. -/
theorem cooldown_rule_spec (settings : Settings) (now : Int) :
    cooldownRule settings none now = [] ∧
    (∀ t : Int, settings.cooldown * msPerDay ≤ now - t →
      cooldownRule settings (some t) now = []) ∧
    (∀ t : Int, now - t < settings.cooldown * msPerDay →
      cooldownRule settings (some t) now =
        [cooldownMsg (cooldownRemaining settings t now)]) := by
  refine ⟨rfl, fun t h => ?_, fun t h => ?_⟩
  · simp [cooldownRule, not_lt.2 h]
  · simp [cooldownRule, h]

/-- C3 witness: with a 1-day cooldown, a request exactly 1 day after the
previous one draws no cooldown reason, and one 12 hours after does. -/
theorem cooldown_rule_spec_witness :
    cooldownRule exSettings (some 0) 86400000 = [] ∧
    cooldownRule exSettings (some 0) 43200000 =
      [cooldownMsg (cooldownRemaining exSettings 0 43200000)] :=
  ⟨(cooldown_rule_spec exSettings 86400000).2.1 0 (by decide),
   (cooldown_rule_spec exSettings 43200000).2.2 0 (by decide)⟩

/-- C5: when the external lookup fails (the node-osu client rejects both on
failure and on an empty result), the handler replies with the empty candidate
and exactly the one reason "Invalid beatmap ID", and the store is untouched:
no Request is persisted and admission is never attempted. -/
theorem invalid_lookup_single_reason_no_persist (comment : String) (m4m : Bool)
    (username : String) (userid : Int) (target : String) (now : Int)
    (st : ServerState) :
    postRequest none comment m4m username userid target now st =
      ({ map := none, errors := ["Invalid beatmap ID"] }, st) := rfl

/-- C4: the capacity check runs only after the new Request is persisted (it
counts a store already containing the new request): if the pending count was
`maxPending - 1` before acceptance the queue's open flag is set to false, and
if it was strictly below `maxPending - 1` the settings are left untouched. -/
theorem capacity_boundary (first : RawBeatmap) (rest : List RawBeatmap)
    (comment : String) (m4m : Bool) (username : String) (userid : Int)
    (target : String) (now : Int) (st : ServerState)
    (haccept : evaluate (buildCandidate first rest comment m4m) username target
      st.settings (latestRequestDate st.requests userid target) now = [])
    (hmax : 1 ≤ st.settings.maxPending) :
    ((postRequest (some (first, rest)) comment m4m username userid target now st).2).requests =
      mkRequest (buildCandidate first rest comment m4m) userid now target :: st.requests ∧
    (countPending st.requests target = st.settings.maxPending - 1 →
      ((postRequest (some (first, rest)) comment m4m username userid target now st).2).settings.openFlag = false) ∧
    (countPending st.requests target < st.settings.maxPending - 1 →
      ((postRequest (some (first, rest)) comment m4m username userid target now st).2).settings = st.settings) := by
  have hcount :
      countPending (mkRequest (buildCandidate first rest comment m4m) userid now target :: st.requests) target =
        countPending st.requests target + 1 :=
    countPending_cons_of _ _ _ (by simp [mkRequest])
  refine ⟨?_, ?_, ?_⟩
  · simp [postRequest, haccept]
  · intro hc
    have hle : st.settings.maxPending ≤
        countPending (mkRequest (buildCandidate first rest comment m4m) userid now target :: st.requests) target := by
      rw [hcount, hc]; omega
    simp [postRequest, haccept, hle]
  · intro hc
    have hlt : ¬ st.settings.maxPending ≤
        countPending (mkRequest (buildCandidate first rest comment m4m) userid now target :: st.requests) target := by
      rw [hcount]; omega
    simp [postRequest, haccept, hlt]

/-- C4 witness: an empty store with `maxPending = 1`: the owner's own accepted
submission brings the pending count from 0 = maxPending - 1 to 1, and the
queue closes. -/
theorem capacity_boundary_witness :
    ((postRequest (some (exRaw, [])) "" false "bob" 7 "bob" 0 exStateEmpty).2).settings.openFlag = false :=
  (capacity_boundary exRaw [] "" false "bob" 7 "bob" 0 exStateEmpty rfl
    (by decide)).2.1 (by decide)

/-- C6 counterexample: with a 1-day cooldown and the prior request exactly
1 ms short of the cooldown, the reason IS emitted but the reported remaining
wait is `round(1 / 86400000) = 0`, not a value strictly greater than 0: the
user is told to wait 0 days. -/
theorem cooldown_one_ms_shows_zero_days :
    cooldownRule exSettings (some 0) 86399999 =
      ["You need to wait 0 days before you can request again"] ∧
    cooldownRemaining exSettings 0 86399999 = 0 ∧
    ¬ 0 < cooldownRemaining exSettings 0 86399999 := by
  have hrem : cooldownRemaining exSettings 0 86399999 = 0 := by
    norm_num [cooldownRemaining, exSettings, msPerDay, round]
  have hmsg : cooldownMsg 0 = "You need to wait 0 days before you can request again" := by
    rw [cooldownMsg, decStr_zero]; rfl
  refine ⟨?_, hrem, by simp [hrem]⟩
  have h : (86399999 : Int) - 0 < exSettings.cooldown * msPerDay := by decide
  rw [(cooldown_rule_spec exSettings 86399999).2.2 0 h, hrem, hmsg]

/-- C6 amended: if the elapsed time equals the cooldown period exactly, no
cooldown reason is emitted; if it is exactly 1 ms short, a cooldown reason is
emitted, but its reported remaining wait rounds to 0 days (not a strictly
positive value): the message reads "You need to wait 0 days before you can
request again". -/
theorem cooldown_boundary_amended (settings : Settings) (t now : Int) :
    (now - t = settings.cooldown * msPerDay →
      cooldownRule settings (some t) now = []) ∧
    (now - t = settings.cooldown * msPerDay - 1 →
      cooldownRemaining settings t now = 0 ∧
      cooldownRule settings (some t) now =
        ["You need to wait 0 days before you can request again"]) := by
  constructor
  · intro h
    simp [cooldownRule, h]
  · intro h
    have h1 : (settings.cooldown * msPerDay - (now - t) : Int) = 1 := by omega
    have hlt : now - t < settings.cooldown * msPerDay := by omega
    have hrem : cooldownRemaining settings t now = 0 := by
      unfold cooldownRemaining
      rw [h1]
      norm_num [round, msPerDay]
    have hmsg : cooldownMsg 0 = "You need to wait 0 days before you can request again" := by
      rw [cooldownMsg, decStr_zero]; rfl
    refine ⟨hrem, ?_⟩
    simp only [cooldownRule, if_pos hlt, hrem, hmsg]

/-- C6 amended witness: 1-day cooldown, prior request at time 0: at
86400000 ms no reason; at 86399999 ms the "wait 0 days" reason. -/
theorem cooldown_boundary_amended_witness :
    cooldownRule exSettings (some 0) 86400000 = [] ∧
    cooldownRule exSettings (some 0) 86399999 =
      ["You need to wait 0 days before you can request again"] :=
  ⟨(cooldown_boundary_amended exSettings 0 86400000).1 (by decide),
   ((cooldown_boundary_amended exSettings 0 86399999).2 (by decide)).2⟩

/-- C7 counterexample: the object spread `{...map, status: "Pending", ...}`
overwrites the candidate's review status, so a persisted Request built from a
"Ranked" candidate does not contain the candidate's source review status. -/
theorem request_drops_source_status :
    (mkRequest exMap 7 0 "bob").status ≠ exMap.status := by decide

/-- C7 amended: a persisted Request contains all fields of the candidate it
was built from EXCEPT its source review status, which is overwritten by the
moderation status initialized to "Pending" (a single shared field); plus the
owning user id, the submission timestamp, the target owner identifier, the
archived flag initialized to false, and no feedback text yet. -/
theorem request_fields_amended (map : Candidate) (userid now : Int) (target : String) :
    (mkRequest map userid now target).mapId = map.mapId ∧
    (mkRequest map userid now target).title = map.title ∧
    (mkRequest map userid now target).artist = map.artist ∧
    (mkRequest map userid now target).creator = map.creator ∧
    (mkRequest map userid now target).bpm = map.bpm ∧
    (mkRequest map userid now target).length = map.length ∧
    (mkRequest map userid now target).comment = map.comment ∧
    (mkRequest map userid now target).m4m = map.m4m ∧
    (mkRequest map userid now target).diffs = map.diffs ∧
    (mkRequest map userid now target).image = map.image ∧
    (mkRequest map userid now target).status = "Pending" ∧
    (mkRequest map userid now target).user = userid ∧
    (mkRequest map userid now target).requestDate = now ∧
    (mkRequest map userid now target).target = target ∧
    (mkRequest map userid now target).archived = false ∧
    (mkRequest map userid now target).feedback = none :=
  ⟨rfl, rfl, rfl, rfl, rfl, rfl, rfl, rfl, rfl, rfl, rfl, rfl, rfl, rfl, rfl, rfl⟩

/-- C8: for every candidate produced by a successful lookup, the variants
list is sorted non-decreasing by (2-decimal-rounded) difficulty rating, and
is a permutation of the per-variant records whose ratings were rounded by
`round` before sorting. -/
theorem diffs_sorted_by_rounded_sr (first : RawBeatmap) (rest : List RawBeatmap)
    (comment : String) (m4m : Bool) :
    List.Pairwise (fun a b : Diff => a.sr ≤ b.sr)
      (buildCandidate first rest comment m4m).diffs ∧
    ((buildCandidate first rest comment m4m).diffs).Perm
      ((first :: rest).map toDiff) := by
  constructor
  · have hs : (((first :: rest).map toDiff).mergeSort
        (fun a b => decide (a.sr ≤ b.sr))).Pairwise
        (fun a b => (fun a b : Diff => decide (a.sr ≤ b.sr)) a b = true) :=
      List.sorted_mergeSort
        (fun a b c hab hbc => by
          simp only [decide_eq_true_eq] at hab hbc ⊢
          exact le_trans hab hbc)
        (fun a b => by
          simpa only [Bool.or_eq_true, decide_eq_true_eq] using le_total a.sr b.sr)
        ((first :: rest).map toDiff)
    simp only [buildCandidate]
    exact hs.imp (fun h => by simpa using h)
  · simp only [buildCandidate]
    exact List.mergeSort_perm _ _

/-- Definition following the spec's words (§3, §6) for comparison with the
code's `round`: "round-half-away-from-zero on value×100, then ÷100". -/
def roundHalfAwayFromZero (y : ℚ) : ℤ :=
  if 0 ≤ y then ⌊y + 1 / 2⌋ else -⌊-y + 1 / 2⌋

/-- The spec's 2-decimal rounding: round-half-away-from-zero of `x * 100`,
divided by 100. -/
def round2Spec (x : ℚ) : ℚ :=
  ((roundHalfAwayFromZero (x * 100) : ℤ) : ℚ) / 100

/-- C9 counterexample: at `x = -0.005` the code's `round` (JS `Math.round`,
half toward +∞) gives 0, while round-half-away-from-zero gives -0.01, so the
two functions are not equal on every numeric input. -/
theorem round_ne_round2Spec_at_neg :
    round (-1 / 200 : ℚ) = 0 ∧
    round2Spec (-1 / 200 : ℚ) = -1 / 100 ∧
    round (-1 / 200 : ℚ) ≠ round2Spec (-1 / 200 : ℚ) := by
  have h1 : round (-1 / 200 : ℚ) = 0 := by norm_num [round]
  have h2 : round2Spec (-1 / 200 : ℚ) = -1 / 100 := by
    norm_num [round2Spec, roundHalfAwayFromZero]
  exact ⟨h1, h2, by rw [h1, h2]; norm_num⟩

/-- C9 amended: on every nonnegative input (which covers all difficulty
ratings and the remaining cooldown wait as used by the code), the code's
`round` agrees with round-half-away-from-zero on x×100 then ÷100; on negative
half-way inputs the code instead rounds half toward +∞. -/
theorem round_eq_round2Spec_of_nonneg (x : ℚ) (h : 0 ≤ x) :
    round x = round2Spec x := by
  have hx : 0 ≤ x * 100 := by positivity
  simp [round, round2Spec, roundHalfAwayFromZero, hx]

/-- C9 amended witness: at `x = 1` both roundings give 1. -/
theorem round_eq_round2Spec_of_nonneg_witness :
    (0 : ℚ) ≤ 1 ∧ round 1 = round2Spec 1 :=
  ⟨zero_le_one, round_eq_round2Spec_of_nonneg 1 zero_le_one⟩

/-- C10: the pending count of api.js line 138 filters only on
status = "Pending" and the target, never on the archived flag, so an archived
request whose status is still "Pending" counts toward `maxPending`; and in a
store whose requests are all archived, an accepted submission still triggers
the auto-close once the count reaches `maxPending`. -/
theorem countPending_ignores_archived :
    (∀ (r : Request) (reqs : List Request) (t : String) (b : Bool),
      r.status = "Pending" → r.target = t →
      countPending ({ r with archived := b } :: reqs) t = countPending reqs t + 1) ∧
    (∀ (first : RawBeatmap) (rest : List RawBeatmap) (comment : String)
      (m4m : Bool) (username : String) (userid : Int) (target : String)
      (now : Int) (st : ServerState),
      (∀ r ∈ st.requests, r.archived = true) →
      evaluate (buildCandidate first rest comment m4m) username target
        st.settings (latestRequestDate st.requests userid target) now = [] →
      st.settings.maxPending ≤ countPending st.requests target + 1 →
      ((postRequest (some (first, rest)) comment m4m username userid target now st).2).settings.openFlag = false) := by
  constructor
  · intro r reqs t b h1 h2
    exact countPending_cons_of _ _ _ (by simp [h1, h2])
  · intro first rest comment m4m username userid target now st _harch haccept hfull
    have hcount :
        countPending (mkRequest (buildCandidate first rest comment m4m) userid now target :: st.requests) target =
          countPending st.requests target + 1 :=
      countPending_cons_of _ _ _ (by simp [mkRequest])
    have hle : st.settings.maxPending ≤
        countPending (mkRequest (buildCandidate first rest comment m4m) userid now target :: st.requests) target := by
      rw [hcount]; exact hfull
    simp [postRequest, haccept, hle]

/-- C10 witness: a store whose only request is archived yet Pending: it
counts, and with `maxPending = 2` the owner's next accepted submission closes
the queue. -/
theorem countPending_ignores_archived_witness :
    countPending ({ exArchivedReq with archived := true } :: []) "bob" =
      countPending [] "bob" + 1 ∧
    ((postRequest (some (exRaw, [])) "" false "bob" 7 "bob" 0 exStateArchived).2).settings.openFlag = false :=
  ⟨countPending_ignores_archived.1 exArchivedReq [] "bob" true rfl rfl,
   countPending_ignores_archived.2 exRaw [] "" false "bob" 7 "bob" 0
     exStateArchived (by decide) rfl (by decide)⟩

end Osumod
